import Mathlib

/-!
Verification of the 3D wireframe renderer (Lucas1981/basic-wireframe).

The TypeScript sources are shallowly embedded here: JS numbers become exact
reals, class fields become structure fields, in-place mutation becomes
explicit state passing.  Definitions follow the source files
(`src/3d-utils.ts`, `src/Mesh3D.ts`, `src/Camera.ts`, the SceneObject and
Polygon3D classes, and the procedural grid generator) line by line; the
configuration constants of `src/constants.ts`, which are not part of the
sources available, are modelled from the spec as an abstract configuration
record.
-/

open Real

/-- 3D point (`Point3D.ts`): an ordered triple of coordinates. -/
@[ext]
structure Point3D where
  x : ℝ
  y : ℝ
  z : ℝ

/-- 2D point (`Point2D.ts`). -/
@[ext]
structure Point2D where
  x : ℝ
  y : ℝ

/-- A plain `{x, y, z}` record, used by the sources for `position`,
`rotation` (Euler degrees) and `scale` of scene objects and cameras. -/
@[ext]
structure Vec3 where
  x : ℝ
  y : ℝ
  z : ℝ

/-- `Polygon3D.ts`: a face, holding a color and a list of indices
(`vertexIndices`) into an array of the parent mesh. -/
structure Polygon3D where
  color : String
  vertexIndices : List Nat

/-- `VisibilityState.ts`: enum with the two visibility states. -/
inductive VisibilityState where
  | VISIBLE
  | CULLED
deriving DecidableEq, Repr

/-- `Mesh3D.calculateBoundingRadius` (`Mesh3D.ts` lines 20-31): the loop
keeps the maximum squared distance from the origin over all points
(starting from 0) and returns its square root. -/
noncomputable def calculateBoundingRadius (points : List Point3D) : ℝ :=
  Real.sqrt (points.foldl
    (fun maxRadiusSquared point =>
      let distSquared := point.x * point.x + point.y * point.y + point.z * point.z
      if distSquared > maxRadiusSquared then distSquared else maxRadiusSquared)
    0)

/-- `Mesh3D.ts` (lines 6-17): shared geometry.  `points` are 3D points,
`vertices` are the edges "connecting points", `polygons` the faces, and
`boundingRadius` the pre-calculated bounding sphere radius.

In the TypeScript class the `_vertices` field is declared
`[number, number][]`, but `rotateMesh3DY` in `3d-utils.ts` reassigns it
(through `setVertices`) with values of a different shape; JavaScript
performs no run-time type check on that assignment.  To embed this
faithfully the entry type of the `vertices` array is a type parameter `V`,
and `setVertices` may change it. -/
structure Mesh3D (V : Type) where
  points : List Point3D
  vertices : List V
  polygons : List Polygon3D
  boundingRadius : ℝ

/-- The `Mesh3D` constructor (`Mesh3D.ts` lines 12-17): stores the three
arrays and pre-computes `boundingRadius` from `points`. -/
noncomputable def mkMesh3D (points : List Point3D) (vertices : List V)
    (polygons : List Polygon3D) : Mesh3D V :=
  { points := points
    vertices := vertices
    polygons := polygons
    boundingRadius := calculateBoundingRadius points }

/-- `Mesh3D.setPoints` (`Mesh3D.ts` lines 44-47): replaces `points` and
recalculates the bounding radius. -/
noncomputable def Mesh3D.setPoints (m : Mesh3D V) (points : List Point3D) : Mesh3D V :=
  { m with points := points, boundingRadius := calculateBoundingRadius points }

/-- `Mesh3D.setVertices` (`Mesh3D.ts` lines 55-57): replaces the
`vertices` array only; unlike `setPoints` it does not touch
`boundingRadius` (nor `points`). -/
def Mesh3D.setVertices (m : Mesh3D V) (vertices : List W) : Mesh3D W :=
  { points := m.points
    vertices := vertices
    polygons := m.polygons
    boundingRadius := m.boundingRadius }

/-- `Mesh3D.getVertices` (`Mesh3D.ts` lines 50-52). -/
def Mesh3D.getVertices (m : Mesh3D V) : List V := m.vertices

/-- `Mesh3D.getBoundingRadius` (`Mesh3D.ts` lines 34-36). -/
def Mesh3D.getBoundingRadius (m : Mesh3D V) : ℝ := m.boundingRadius

/-- `SceneObject.ts`: a mesh reference plus per-instance transform and a
visibility flag.  The mesh field is kept polymorphic in the mesh type `M`
(see `Mesh3D` for why the mesh's own vertex entry type varies). -/
structure SceneObject (M : Type) where
  mesh : M
  position : Vec3
  rotation : Vec3
  scale : Vec3
  visibilityState : VisibilityState

/-- `SceneObject.getWorldBoundingRadius` (SceneObject class, lines 81-90):
`meshRadius * max(|scale.x|, |scale.y|, |scale.z|)`. -/
def getWorldBoundingRadius (obj : SceneObject (Mesh3D V)) : ℝ :=
  let meshRadius := obj.mesh.getBoundingRadius
  let maxScale := max (max |obj.scale.x| |obj.scale.y|) |obj.scale.z|
  meshRadius * maxScale

/-- `Camera.ts`: viewer position and Euler rotation (degrees). -/
structure Camera where
  position : Vec3
  rotation : Vec3

/-- Modelled from the spec: the configuration constants consumed from
`src/constants.ts` (not among the available sources): field-of-view in
degrees, aspect ratio, and screen half-width/half-height in pixels.
They are free parameters here, as the spec treats them as read-only
configuration inputs. -/
structure RenderConfig where
  FOV : ℝ
  aspect : ℝ
  HALF_SCREEN_WIDTH : ℝ
  HALF_SCREEN_HEIGHT : ℝ

/-- Modelled from the spec: `focalLength = 1 / tan(FOV/2)` precomputed
from the configured field-of-view (degrees are converted to radians,
`FOV/2` in radians is `FOV * π / 360`). -/
noncomputable def RenderConfig.FOCAL_LENGTH (cfg : RenderConfig) : ℝ :=
  1 / Real.tan (cfg.FOV * Real.pi / 360)

/-- `halfFovRad` (`3d-utils.ts` line 233): `FOV * π / 360`, i.e. FOV/2 in
radians. -/
noncomputable def halfFovRad (cfg : RenderConfig) : ℝ :=
  cfg.FOV * Real.pi / 360

/-- `nearPlane` (`3d-utils.ts` line 231). -/
noncomputable def nearPlane : ℝ := 0.1

/-- `farPlane` (`3d-utils.ts` line 232). -/
noncomputable def farPlane : ℝ := 1000

/-- `ndcToScreenSpaceScale` (`3d-utils.ts` line 78). -/
noncomputable def ndcToScreenSpaceScale : ℝ := 200

/-- `projectToNDC` (`3d-utils.ts` lines 57-68): clamp z to at least 0.1,
then perspective-divide x and y by the clamped z, scaled by the focal
length; z is kept. -/
noncomputable def projectToNDC (cfg : RenderConfig) (cameraPoint : Point3D) : Point3D :=
  let safeZ := max cameraPoint.z 0.1
  let perspectiveFactor := cfg.FOCAL_LENGTH / safeZ
  let ndcX := cameraPoint.x * perspectiveFactor
  let ndcY := cameraPoint.y * perspectiveFactor
  { x := ndcX, y := ndcY, z := safeZ }

/-- `ndcToScreenSpace` (`3d-utils.ts` lines 79-91): scale, flip Y, center
on screen. -/
noncomputable def ndcToScreenSpace (cfg : RenderConfig) (ndcPoint : Point3D) : Point2D :=
  let screenX := cfg.HALF_SCREEN_WIDTH + ndcPoint.x * ndcToScreenSpaceScale
  let screenY := cfg.HALF_SCREEN_HEIGHT - ndcPoint.y * ndcToScreenSpaceScale
  { x := screenX, y := screenY }

/-- `project3DPoint` (`3d-utils.ts` lines 95-98): camera space to NDC to
screen space. -/
noncomputable def project3DPoint (cfg : RenderConfig) (cameraPoint : Point3D) : Point2D :=
  ndcToScreenSpace cfg (projectToNDC cfg cameraPoint)

open Classical in
/-- `applyTransformToPoint` (`3d-utils.ts` lines 125-174): scale, then the
three guarded axis rotations in order X, Y, Z (each skipped when its Euler
angle is exactly zero), then translate. -/
noncomputable def applyTransformToPoint (point : Point3D)
    (sceneObject : SceneObject M) : Point3D :=
  let x0 := point.x * sceneObject.scale.x
  let y0 := point.y * sceneObject.scale.y
  let z0 := point.z * sceneObject.scale.z
  let p1 : ℝ × ℝ × ℝ :=
    if sceneObject.rotation.x ≠ 0 then
      let angleX := sceneObject.rotation.x * Real.pi / 180
      let cosX := Real.cos angleX
      let sinX := Real.sin angleX
      (x0, y0 * cosX - z0 * sinX, y0 * sinX + z0 * cosX)
    else (x0, y0, z0)
  let p2 : ℝ × ℝ × ℝ :=
    if sceneObject.rotation.y ≠ 0 then
      let angleY := sceneObject.rotation.y * Real.pi / 180
      let cosY := Real.cos angleY
      let sinY := Real.sin angleY
      (p1.1 * cosY + p1.2.2 * sinY, p1.2.1, -p1.1 * sinY + p1.2.2 * cosY)
    else p1
  let p3 : ℝ × ℝ × ℝ :=
    if sceneObject.rotation.z ≠ 0 then
      let angleZ := sceneObject.rotation.z * Real.pi / 180
      let cosZ := Real.cos angleZ
      let sinZ := Real.sin angleZ
      (p2.1 * cosZ - p2.2.1 * sinZ, p2.1 * sinZ + p2.2.1 * cosZ, p2.2.2)
    else p2
  { x := p3.1 + sceneObject.position.x
    y := p3.2.1 + sceneObject.position.y
    z := p3.2.2 + sceneObject.position.z }

open Classical in
/-- `worldToCameraSpace` (`3d-utils.ts` lines 179-225): translate by the
negated camera position, then apply the inverse (negated-angle) rotations
in order Y, X, Z, each skipped when the camera's Euler angle is zero. -/
noncomputable def worldToCameraSpace (worldPoint : Point3D) (camera : Camera) : Point3D :=
  let x0 := worldPoint.x - camera.position.x
  let y0 := worldPoint.y - camera.position.y
  let z0 := worldPoint.z - camera.position.z
  let p1 : ℝ × ℝ × ℝ :=
    if camera.rotation.y ≠ 0 then
      let angleY := -camera.rotation.y * Real.pi / 180
      let cosY := Real.cos angleY
      let sinY := Real.sin angleY
      (x0 * cosY + z0 * sinY, y0, -x0 * sinY + z0 * cosY)
    else (x0, y0, z0)
  let p2 : ℝ × ℝ × ℝ :=
    if camera.rotation.x ≠ 0 then
      let angleX := -camera.rotation.x * Real.pi / 180
      let cosX := Real.cos angleX
      let sinX := Real.sin angleX
      (p1.1, p1.2.1 * cosX - p1.2.2 * sinX, p1.2.1 * sinX + p1.2.2 * cosX)
    else p1
  let p3 : ℝ × ℝ × ℝ :=
    if camera.rotation.z ≠ 0 then
      let angleZ := -camera.rotation.z * Real.pi / 180
      let cosZ := Real.cos angleZ
      let sinZ := Real.sin angleZ
      (p2.1 * cosZ - p2.2.1 * sinZ, p2.1 * sinZ + p2.2.1 * cosZ, p2.2.2)
    else p2
  { x := p3.1, y := p3.2.1, z := p3.2.2 }

open Classical in
/-- `isObjectInFrustum` (`3d-utils.ts` lines 234-274): bounding-sphere
test against the near plane, far plane, and the four side planes at the
sphere's depth. -/
noncomputable def isObjectInFrustum (cfg : RenderConfig)
    (cameraSpaceCenter : Point3D) (boundingRadius : ℝ) : Bool :=
  if cameraSpaceCenter.z + boundingRadius < nearPlane then false
  else if cameraSpaceCenter.z - boundingRadius > farPlane then false
  else
    let halfHeight := Real.tan (halfFovRad cfg) * cameraSpaceCenter.z
    let halfWidth := halfHeight * cfg.aspect
    if cameraSpaceCenter.x - boundingRadius > halfWidth then false
    else if cameraSpaceCenter.x + boundingRadius < -halfWidth then false
    else if cameraSpaceCenter.y - boundingRadius > halfHeight then false
    else if cameraSpaceCenter.y + boundingRadius < -halfHeight then false
    else true

/-- `cullSceneObject` (`3d-utils.ts` lines 278-300): transform the
object's position to camera space, read the world bounding radius, run
the frustum test, and set the visibility state accordingly. -/
noncomputable def cullSceneObject (cfg : RenderConfig)
    (sceneObject : SceneObject (Mesh3D V)) (camera : Camera) :
    SceneObject (Mesh3D V) :=
  let worldCenter : Point3D :=
    { x := sceneObject.position.x
      y := sceneObject.position.y
      z := sceneObject.position.z }
  let cameraSpaceCenter := worldToCameraSpace worldCenter camera
  let boundingRadius := getWorldBoundingRadius sceneObject
  let visible := isObjectInFrustum cfg cameraSpaceCenter boundingRadius
  { sceneObject with
    visibilityState :=
      if visible then VisibilityState.VISIBLE else VisibilityState.CULLED }

/-! ### The mesh rotation mutator `rotateMesh3DY`

`rotateMesh3DY` (`3d-utils.ts` lines 101-121) reads `mesh.getVertices()`
and writes the mapped array back with `mesh.setVertices(...)`.  Against
the `Mesh3D` class of `src/Mesh3D.ts` those accessors address the edge
array (`[number, number][]`), not the 3D point array: the body then reads
`vertex.x`, `vertex.y`, `vertex.z` on an index pair, which in JavaScript
yields `undefined`, and the arithmetic on `undefined` yields `NaN`.  We
model a JS numeric value that may be `undefined`/`NaN` as `Option ℝ` with
`none` for the non-numeric results. -/

/-- A JavaScript numeric value: `some r` is an ordinary number, `none`
stands for `undefined` or `NaN`. -/
def JSNum : Type := Option ℝ

/-- JS addition: `NaN`/`undefined` absorbs. -/
def jsAdd : JSNum → JSNum → JSNum
  | some a, some b => some (a + b)
  | _, _ => none

/-- JS multiplication: `NaN`/`undefined` absorbs. -/
def jsMul : JSNum → JSNum → JSNum
  | some a, some b => some (a * b)
  | _, _ => none

/-- JS unary minus: `-undefined` is `NaN`. -/
def jsNeg : JSNum → JSNum
  | some a => some (-a)
  | none => none

/-- Reading the `x` property of an edge pair: a JS array `[a, b]` has no
`x` property, so the read yields `undefined`. -/
def edgePropX (_vertex : Nat × Nat) : JSNum := none

/-- Reading the `y` property of an edge pair yields `undefined`. -/
def edgePropY (_vertex : Nat × Nat) : JSNum := none

/-- Reading the `z` property of an edge pair yields `undefined`. -/
def edgePropZ (_vertex : Nat × Nat) : JSNum := none

/-- `rotateMesh3DY` (`3d-utils.ts` lines 101-121), composed with the
`Mesh3D` class of `src/Mesh3D.ts`: maps the Y-rotation body over
`mesh.getVertices()` — the edge array — and stores the result with
`mesh.setVertices`.  The property reads on the index pairs yield
`undefined` (see `edgePropX`), and `setVertices` touches neither `points`
nor `boundingRadius`. -/
noncomputable def rotateMesh3DY (mesh : Mesh3D (Nat × Nat))
    (angleInDegrees : ℝ) : Mesh3D (JSNum × JSNum × JSNum) :=
  let angleInRadians := angleInDegrees * Real.pi / 180
  let cosAngle := Real.cos angleInRadians
  let sinAngle := Real.sin angleInRadians
  let rotatedVertices := mesh.getVertices.map (fun vertex =>
    (jsAdd (jsMul (edgePropX vertex) (some cosAngle))
        (jsMul (edgePropZ vertex) (some sinAngle)),
      edgePropY vertex,
      jsAdd (jsMul (jsNeg (edgePropX vertex)) (some sinAngle))
        (jsMul (edgePropZ vertex) (some cosAngle))))
  mesh.setVertices rotatedVertices

/-- The Y-axis rotation formula in the body of `rotateMesh3DY`
(`3d-utils.ts` lines 109-117) applied to an actual 3D point — the
transformation the function's own comments describe
(`x' = x cos θ + z sin θ`, `y' = y`, `z' = -x sin θ + z cos θ`). -/
noncomputable def rotatePointY (angleInDegrees : ℝ) (vertex : Point3D) : Point3D :=
  let angleInRadians := angleInDegrees * Real.pi / 180
  let cosAngle := Real.cos angleInRadians
  let sinAngle := Real.sin angleInRadians
  { x := vertex.x * cosAngle + vertex.z * sinAngle
    y := vertex.y
    z := -vertex.x * sinAngle + vertex.z * cosAngle }

open Classical in
/-- The unguarded reference version of `applyTransformToPoint` described
by the spec: scale, then always apply all three axis rotations in order
X, Y, Z, then translate (no zero-angle skip). -/
noncomputable def applyTransformToPointUnguarded (point : Point3D)
    (sceneObject : SceneObject M) : Point3D :=
  let x0 := point.x * sceneObject.scale.x
  let y0 := point.y * sceneObject.scale.y
  let z0 := point.z * sceneObject.scale.z
  let p1 : ℝ × ℝ × ℝ :=
    let angleX := sceneObject.rotation.x * Real.pi / 180
    let cosX := Real.cos angleX
    let sinX := Real.sin angleX
    (x0, y0 * cosX - z0 * sinX, y0 * sinX + z0 * cosX)
  let p2 : ℝ × ℝ × ℝ :=
    let angleY := sceneObject.rotation.y * Real.pi / 180
    let cosY := Real.cos angleY
    let sinY := Real.sin angleY
    (p1.1 * cosY + p1.2.2 * sinY, p1.2.1, -p1.1 * sinY + p1.2.2 * cosY)
  let p3 : ℝ × ℝ × ℝ :=
    let angleZ := sceneObject.rotation.z * Real.pi / 180
    let cosZ := Real.cos angleZ
    let sinZ := Real.sin angleZ
    (p2.1 * cosZ - p2.2.1 * sinZ, p2.1 * sinZ + p2.2.1 * cosZ, p2.2.2)
  { x := p3.1 + sceneObject.position.x
    y := p3.2.1 + sceneObject.position.y
    z := p3.2.2 + sceneObject.position.z }

/-! ### The draw pass `drawSceneObject`

`drawSceneObject` (`3d-utils.ts` lines 303-334) reads `mesh.getVertices()`
and maps each entry through `applyTransformToPoint`, `worldToCameraSpace`
and `project3DPoint`.  Composed with the `Mesh3D` class of
`src/Mesh3D.ts` — the one cited by the claims — `getVertices()` returns
the edge array `[number, number][]`, so every property read
`vertex.x`/`.y`/`.z` inside the transform chain yields `undefined` and the
arithmetic yields `NaN` (the same `getVertices` slip as in
`rotateMesh3DY`).  The transform and projection functions are therefore
embedded here a second time with JavaScript number semantics (`JSNum`,
`none` = `undefined`/`NaN`), mirroring the same source lines as their
exact-real counterparts above. -/

/-- JS subtraction: `NaN`/`undefined` absorbs. -/
def jsSub : JSNum → JSNum → JSNum
  | some a, some b => some (a - b)
  | _, _ => none

/-- JS `Math.max`: returns `NaN` when an argument is `NaN` (or
`undefined`, which `Math.max` coerces to `NaN`). -/
noncomputable def jsMax : JSNum → JSNum → JSNum
  | some a, some b => some (max a b)
  | _, _ => none

/-- JS division: `NaN`/`undefined` absorbs. -/
noncomputable def jsDiv : JSNum → JSNum → JSNum
  | some a, some b => some (a / b)
  | _, _ => none

/-- A `Point2D` object whose coordinate fields hold JS numeric values that
may be `NaN` — what `ndcToScreenSpace` constructs when fed the projected
edge-pair data. -/
structure JSPoint2D where
  x : JSNum
  y : JSNum

open Classical in
/-- `applyTransformToPoint` (`3d-utils.ts` lines 125-174) as executed on
an entry of the real mesh's `vertices` array: the entry is an edge index
pair, its `x`/`y`/`z` property reads yield `undefined`, and the scaling,
guarded rotations (X, Y, Z) and translation proceed in JS number
semantics. -/
noncomputable def applyTransformToPointJS (point : Nat × Nat)
    (sceneObject : SceneObject M) : JSNum × JSNum × JSNum :=
  let x0 := jsMul (edgePropX point) (some sceneObject.scale.x)
  let y0 := jsMul (edgePropY point) (some sceneObject.scale.y)
  let z0 := jsMul (edgePropZ point) (some sceneObject.scale.z)
  let p1 : JSNum × JSNum × JSNum :=
    if sceneObject.rotation.x ≠ 0 then
      let angleX := sceneObject.rotation.x * Real.pi / 180
      let cosX := Real.cos angleX
      let sinX := Real.sin angleX
      (x0, jsSub (jsMul y0 (some cosX)) (jsMul z0 (some sinX)),
        jsAdd (jsMul y0 (some sinX)) (jsMul z0 (some cosX)))
    else (x0, y0, z0)
  let p2 : JSNum × JSNum × JSNum :=
    if sceneObject.rotation.y ≠ 0 then
      let angleY := sceneObject.rotation.y * Real.pi / 180
      let cosY := Real.cos angleY
      let sinY := Real.sin angleY
      (jsAdd (jsMul p1.1 (some cosY)) (jsMul p1.2.2 (some sinY)), p1.2.1,
        jsAdd (jsMul (jsNeg p1.1) (some sinY)) (jsMul p1.2.2 (some cosY)))
    else p1
  let p3 : JSNum × JSNum × JSNum :=
    if sceneObject.rotation.z ≠ 0 then
      let angleZ := sceneObject.rotation.z * Real.pi / 180
      let cosZ := Real.cos angleZ
      let sinZ := Real.sin angleZ
      (jsSub (jsMul p2.1 (some cosZ)) (jsMul p2.2.1 (some sinZ)),
        jsAdd (jsMul p2.1 (some sinZ)) (jsMul p2.2.1 (some cosZ)), p2.2.2)
    else p2
  (jsAdd p3.1 (some sceneObject.position.x),
    jsAdd p3.2.1 (some sceneObject.position.y),
    jsAdd p3.2.2 (some sceneObject.position.z))

open Classical in
/-- `worldToCameraSpace` (`3d-utils.ts` lines 179-225) in JS number
semantics, for the `NaN`-laden world points produced above. -/
noncomputable def worldToCameraSpaceJS (worldPoint : JSNum × JSNum × JSNum)
    (camera : Camera) : JSNum × JSNum × JSNum :=
  let x0 := jsSub worldPoint.1 (some camera.position.x)
  let y0 := jsSub worldPoint.2.1 (some camera.position.y)
  let z0 := jsSub worldPoint.2.2 (some camera.position.z)
  let p1 : JSNum × JSNum × JSNum :=
    if camera.rotation.y ≠ 0 then
      let angleY := -camera.rotation.y * Real.pi / 180
      let cosY := Real.cos angleY
      let sinY := Real.sin angleY
      (jsAdd (jsMul x0 (some cosY)) (jsMul z0 (some sinY)), y0,
        jsAdd (jsMul (jsNeg x0) (some sinY)) (jsMul z0 (some cosY)))
    else (x0, y0, z0)
  let p2 : JSNum × JSNum × JSNum :=
    if camera.rotation.x ≠ 0 then
      let angleX := -camera.rotation.x * Real.pi / 180
      let cosX := Real.cos angleX
      let sinX := Real.sin angleX
      (p1.1, jsSub (jsMul p1.2.1 (some cosX)) (jsMul p1.2.2 (some sinX)),
        jsAdd (jsMul p1.2.1 (some sinX)) (jsMul p1.2.2 (some cosX)))
    else p1
  let p3 : JSNum × JSNum × JSNum :=
    if camera.rotation.z ≠ 0 then
      let angleZ := -camera.rotation.z * Real.pi / 180
      let cosZ := Real.cos angleZ
      let sinZ := Real.sin angleZ
      (jsSub (jsMul p2.1 (some cosZ)) (jsMul p2.2.1 (some sinZ)),
        jsAdd (jsMul p2.1 (some sinZ)) (jsMul p2.2.1 (some cosZ)), p2.2.2)
    else p2
  p3

/-- `projectToNDC` (`3d-utils.ts` lines 57-68) in JS number semantics:
`Math.max(NaN, 0.1)` is `NaN`, and the perspective division propagates
it. -/
noncomputable def projectToNDCJS (cfg : RenderConfig)
    (cameraPoint : JSNum × JSNum × JSNum) : JSNum × JSNum × JSNum :=
  let safeZ := jsMax cameraPoint.2.2 (some 0.1)
  let perspectiveFactor := jsDiv (some cfg.FOCAL_LENGTH) safeZ
  (jsMul cameraPoint.1 perspectiveFactor, jsMul cameraPoint.2.1 perspectiveFactor,
    safeZ)

/-- `ndcToScreenSpace` (`3d-utils.ts` lines 79-91) in JS number
semantics. -/
noncomputable def ndcToScreenSpaceJS (cfg : RenderConfig)
    (ndcPoint : JSNum × JSNum × JSNum) : JSPoint2D :=
  { x := jsAdd (some cfg.HALF_SCREEN_WIDTH) (jsMul ndcPoint.1 (some ndcToScreenSpaceScale))
    y := jsSub (some cfg.HALF_SCREEN_HEIGHT) (jsMul ndcPoint.2.1 (some ndcToScreenSpaceScale)) }

/-- `project3DPoint` (`3d-utils.ts` lines 95-98) in JS number
semantics. -/
noncomputable def project3DPointJS (cfg : RenderConfig)
    (cameraPoint : JSNum × JSNum × JSNum) : JSPoint2D :=
  ndcToScreenSpaceJS cfg (projectToNDCJS cfg cameraPoint)

/-- One `canvas.drawLine(x0, y0, x1, y1, color)` call issued to the
external canvas collaborator; the coordinate arguments are JS numbers and
may be `NaN`. -/
structure DrawCall where
  x0 : JSNum
  y0 : JSNum
  x1 : JSNum
  y1 : JSNum
  color : String

/-- The body of the inner edge loop of `drawSceneObject` at index `i`:
`a = indices[i]`, `b = indices[(i + 1) % n]`, then the two projected
points are read.  `none` models the TypeError fault raised when an
out-of-range index made `projectedPoints[a]` (or `[b]`) `undefined` and
`.x` is read on it — in that case no `drawLine` call is issued for the
edge. -/
def drawCallAt (projectedPoints : List JSPoint2D) (indices : List Nat)
    (color : String) (i : Nat) : Option DrawCall :=
  match indices[i]?, indices[(i + 1) % indices.length]? with
  | some a, some b =>
    match projectedPoints[a]?, projectedPoints[b]? with
    | some s, some e => some { x0 := s.x, y0 := s.y, x1 := e.x, y1 := e.y, color := color }
    | _, _ => none
  | _, _ => none

/-- Run `count` iterations of an edge loop starting at index `i`,
collecting the issued draw calls in order; the Bool records whether the
loop aborted with a fault (at which point no further calls are issued). -/
def emitEdges (f : Nat → Option DrawCall) : Nat → Nat → List DrawCall × Bool
  | _, 0 => ([], false)
  | i, count + 1 =>
    match f i with
    | none => ([], true)
    | some call =>
      let rest := emitEdges f (i + 1) count
      (call :: rest.1, rest.2)

/-- The edge loop of `drawSceneObject` for one polygon: `n` iterations
over the closed loop of its vertex indices. -/
def drawPolygonEdges (projectedPoints : List JSPoint2D) (polygon : Polygon3D) :
    List DrawCall × Bool :=
  emitEdges (drawCallAt projectedPoints polygon.vertexIndices polygon.color)
    0 polygon.vertexIndices.length

/-- The outer polygon loop of `drawSceneObject`: polygons are processed in
order; a fault aborts the whole pass. -/
def drawPolygonList (projectedPoints : List JSPoint2D) :
    List Polygon3D → List DrawCall × Bool
  | [] => ([], false)
  | polygon :: rest =>
    let r := drawPolygonEdges projectedPoints polygon
    if r.2 then (r.1, true)
    else
      let r' := drawPolygonList projectedPoints rest
      (r.1 ++ r'.1, r'.2)

/-- The `projectedPoints` local of `drawSceneObject` (`3d-utils.ts` lines
314-318), composed with the real `Mesh3D` of `src/Mesh3D.ts`: the EDGE
array is mapped through the transform chain in JS number semantics, so the
resulting array is parallel to `mesh.vertices` (not `mesh.points`) and
every entry is a `(NaN, NaN)` screen point. -/
noncomputable def drawProjectedPoints (cfg : RenderConfig)
    (sceneObject : SceneObject (Mesh3D (Nat × Nat))) (camera : Camera) :
    List JSPoint2D :=
  sceneObject.mesh.getVertices.map (fun vertex =>
    project3DPointJS cfg
      (worldToCameraSpaceJS (applyTransformToPointJS vertex sceneObject) camera))

/-- `drawSceneObject` (`3d-utils.ts` lines 303-334), composed with the
`Mesh3D` class of `src/Mesh3D.ts`: map `mesh.getVertices()` — the edge
array — through model-to-world, world-to-camera and camera-to-screen (in
JS number semantics, see `drawProjectedPoints`), then draw each polygon's
edges as consecutive vertex index pairs, closing the loop.  The returned
list is the ordered sequence of `drawLine` calls issued to the canvas; the
Bool records an index-out-of-range fault (TypeError on reading `.x` of
`undefined`) that aborted the pass. -/
noncomputable def drawSceneObject (cfg : RenderConfig)
    (sceneObject : SceneObject (Mesh3D (Nat × Nat))) (camera : Camera) :
    List DrawCall × Bool :=
  drawPolygonList (drawProjectedPoints cfg sceneObject camera)
    sceneObject.mesh.polygons

/-! ### The procedural grid generator `createGridMesh`

From the `3d-object-generators.ts` variant with the deduplicated edge
list. -/

/-- Grid generator state: the growing `vertices` (edge) list, the
`edgeMap` from normalized keys to edge indices (an association list, as
the source's `Map` insertion order is preserved), the running `edgeIndex`,
and the accumulated polygons. -/
structure GridState where
  vertices : List (Nat × Nat)
  edgeMap : List ((Nat × Nat) × Nat)
  edgeIndex : Nat
  polygons : List Polygon3D

/-- The normalized key of `addEdge`: "smaller index first". -/
def edgeKey (p1 p2 : Nat) : Nat × Nat := if p1 < p2 then (p1, p2) else (p2, p1)

/-- The normalized key of a stored edge pair. -/
def pairKey (e : Nat × Nat) : Nat × Nat := edgeKey e.1 e.2

/-- `edgeMap.get(key)`: first entry with the given key. -/
def lookupEdge : List ((Nat × Nat) × Nat) → (Nat × Nat) → Option Nat
  | [], _ => none
  | entry :: rest, key => if entry.1 = key then some entry.2 else lookupEdge rest key

/-- `addEdge(p1, p2)` (`3d-object-generators.ts` lines 44-55): look the
normalized key up in the edge map; if absent, push `[p1, p2]` onto
`vertices`, record the key with the current `edgeIndex`, and bump the
index.  Returns the new state and the edge index. -/
def addEdge (st : GridState) (p1 p2 : Nat) : GridState × Nat :=
  let key := edgeKey p1 p2
  match lookupEdge st.edgeMap key with
  | some i => (st, i)
  | none =>
    ({ st with
        vertices := st.vertices ++ [(p1, p2)]
        edgeMap := st.edgeMap ++ [(key, st.edgeIndex)]
        edgeIndex := st.edgeIndex + 1 }, st.edgeIndex)

/-- `getPointIndex(x, z)` (`3d-object-generators.ts` lines 36-38):
`z * pointsPerSide + x`. -/
def getPointIndex (pointsPerSide x z : Nat) : Nat := z * pointsPerSide + x

/-- One iteration of the doubly nested cell loop of `createGridMesh`
(`3d-object-generators.ts` lines 58-79): the two triangles of the grid
square at `(x, z)`, each adding its three edges and one polygon. -/
def processCell (gridSize : Nat) (color : String) (st : GridState)
    (z x : Nat) : GridState :=
  let pointsPerSide := gridSize + 1
  let topLeft := getPointIndex pointsPerSide x z
  let topRight := getPointIndex pointsPerSide (x + 1) z
  let bottomLeft := getPointIndex pointsPerSide x (z + 1)
  let bottomRight := getPointIndex pointsPerSide (x + 1) (z + 1)
  let r1 := addEdge st topLeft topRight
  let r2 := addEdge r1.1 topRight bottomLeft
  let r3 := addEdge r2.1 bottomLeft topLeft
  let st3 := { r3.1 with
    polygons := r3.1.polygons ++ [{ color := color, vertexIndices := [r1.2, r2.2, r3.2] }] }
  let r4 := addEdge st3 topRight bottomRight
  let r5 := addEdge r4.1 bottomRight bottomLeft
  let r6 := addEdge r5.1 bottomLeft topRight
  { r6.1 with
    polygons := r6.1.polygons ++ [{ color := color, vertexIndices := [r4.2, r5.2, r6.2] }] }

/-- The doubly nested loop of `createGridMesh`: `z` outer, `x` inner, both
from 0 to `gridSize - 1`, starting from the empty state. -/
def gridLoop (gridSize : Nat) (color : String) : GridState :=
  (List.range gridSize).foldl
    (fun st z => (List.range gridSize).foldl
      (fun st x => processCell gridSize color st z x) st)
    { vertices := [], edgeMap := [], edgeIndex := 0, polygons := [] }

/-- `createGridMesh` (`3d-object-generators.ts` lines 13-82): generate the
`(gridSize+1) × (gridSize+1)` flat grid points, run the cell loop, and
build the mesh with the `Mesh3D` constructor. -/
noncomputable def createGridMesh (gridSize : Nat) (cellSize : ℝ)
    (color : String) : Mesh3D (Nat × Nat) :=
  let pointsPerSide := gridSize + 1
  let halfSize := (gridSize : ℝ) * cellSize / 2
  let points := (List.range pointsPerSide).flatMap (fun z =>
    (List.range pointsPerSide).map (fun x =>
      ({ x := (x : ℝ) * cellSize - halfSize, y := 0,
         z := (z : ℝ) * cellSize - halfSize } : Point3D)))
  let st := gridLoop gridSize color
  mkMesh3D points st.vertices st.polygons

/-! Auxiliary descriptions of the grid loop used by the proofs. -/

/-- Insert a key into a key list if it is not already present (the effect
of one `addEdge` call on the sequence of normalized keys). -/
def insertNew (ks : List (Nat × Nat)) (k : Nat × Nat) : List (Nat × Nat) :=
  if k ∈ ks then ks else ks ++ [k]

/-- The six normalized edge keys a cell contributes, in `addEdge` order. -/
def cellKeys (gridSize z x : Nat) : List (Nat × Nat) :=
  let pointsPerSide := gridSize + 1
  let topLeft := getPointIndex pointsPerSide x z
  let topRight := getPointIndex pointsPerSide (x + 1) z
  let bottomLeft := getPointIndex pointsPerSide x (z + 1)
  let bottomRight := getPointIndex pointsPerSide (x + 1) (z + 1)
  [edgeKey topLeft topRight, edgeKey topRight bottomLeft,
    edgeKey bottomLeft topLeft, edgeKey topRight bottomRight,
    edgeKey bottomRight bottomLeft, edgeKey bottomLeft topRight]

/-- The cells of the grid in loop order (`z` outer, `x` inner). -/
def cellList (gridSize : Nat) : List (Nat × Nat) :=
  (List.range gridSize).flatMap (fun z =>
    (List.range gridSize).map (fun x => (z, x)))

/-- All candidate edge keys of the grid, in the order `addEdge` sees
them. -/
def allCellKeys (gridSize : Nat) : List (Nat × Nat) :=
  (cellList gridSize).flatMap (fun c => cellKeys gridSize c.1 c.2)

/-- The invariant of the grid generator state: the edge map's keys are, in
order, the normalized keys of the stored edge pairs, and no key occurs
twice (each unordered pair is stored at most once). -/
def GridInv (st : GridState) : Prop :=
  st.edgeMap.map Prod.fst = st.vertices.map pairKey ∧
  (st.edgeMap.map Prod.fst).Nodup

/-! ### Helper lemmas about the frustum test -/

/-- Unfolding of `isObjectInFrustum`: the test succeeds exactly when all
six culling conditions fail. -/
lemma isObjectInFrustum_eq_true_iff (cfg : RenderConfig) (c : Point3D) (r : ℝ) :
    isObjectInFrustum cfg c r = true ↔
      ¬ (c.z + r < nearPlane) ∧ ¬ (c.z - r > farPlane) ∧
      ¬ (c.x - r > Real.tan (halfFovRad cfg) * c.z * cfg.aspect) ∧
      ¬ (c.x + r < -(Real.tan (halfFovRad cfg) * c.z * cfg.aspect)) ∧
      ¬ (c.y - r > Real.tan (halfFovRad cfg) * c.z) ∧
      ¬ (c.y + r < -(Real.tan (halfFovRad cfg) * c.z)) := by
  simp only [isObjectInFrustum]
  split_ifs with h1 h2 h3 h4 h5 h6 <;>
    simp_all

/-- The half-angle `halfFovRad` of a valid FOV (strictly between 0 and 180
degrees) lies strictly between 0 and π/2, so its tangent is positive. -/
lemma tan_halfFovRad_pos (cfg : RenderConfig) (hfov1 : 0 < cfg.FOV)
    (hfov2 : cfg.FOV < 180) : 0 < Real.tan (halfFovRad cfg) := by
  have hπ := Real.pi_pos
  apply Real.tan_pos_of_pos_of_lt_pi_div_two
  · unfold halfFovRad
    apply div_pos (mul_pos hfov1 hπ)
    norm_num
  · unfold halfFovRad
    have h : cfg.FOV * Real.pi < 180 * Real.pi := by
      exact mul_lt_mul_of_pos_right hfov2 hπ
    have h2 : (180 : ℝ) * Real.pi / 360 = Real.pi / 2 := by ring
    calc cfg.FOV * Real.pi / 360 < 180 * Real.pi / 360 := by linarith
      _ = Real.pi / 2 := h2

/-- A zero-radius sphere on the camera axis at depth strictly between the
near and far planes passes the frustum test, for any valid FOV and any
positive aspect ratio. -/
lemma isObjectInFrustum_on_axis (cfg : RenderConfig) (d : ℝ)
    (h1 : nearPlane < d) (h2 : d < farPlane)
    (hfov1 : 0 < cfg.FOV) (hfov2 : cfg.FOV < 180) (hasp : 0 < cfg.aspect) :
    isObjectInFrustum cfg { x := 0, y := 0, z := d } 0 = true := by
  have htan := tan_halfFovRad_pos cfg hfov1 hfov2
  have hd : 0 < d := by
    have : (0 : ℝ) < nearPlane := by norm_num [nearPlane]
    linarith
  have hH : 0 < Real.tan (halfFovRad cfg) * d := mul_pos htan hd
  have hW : 0 < Real.tan (halfFovRad cfg) * d * cfg.aspect := mul_pos hH hasp
  rw [isObjectInFrustum_eq_true_iff]
  refine ⟨?_, ?_, ?_, ?_, ?_, ?_⟩ <;> push_neg <;> dsimp only <;> linarith

/-! ### Claim theorems C3, C4, C5, C10 -/

/-- C3: for every camera-space point of the form (0, 0, d) with d > 0, the
combined camera-to-screen projection `project3DPoint` (that is,
`projectToNDC` followed by `ndcToScreenSpace`) returns exactly
(HALF_SCREEN_WIDTH, HALF_SCREEN_HEIGHT), with no offset. -/
theorem c3_project3DPoint_on_axis (cfg : RenderConfig) (d : ℝ) (_hd : 0 < d) :
    project3DPoint cfg { x := 0, y := 0, z := d } =
      { x := cfg.HALF_SCREEN_WIDTH, y := cfg.HALF_SCREEN_HEIGHT } := by
  unfold project3DPoint projectToNDC ndcToScreenSpace
  ext <;> simp

/-- Witness for C3 at the concrete configuration FOV = 60, aspect = 1,
half-screen 400 × 300 and depth d = 5. -/
theorem c3_witness :
    (0 : ℝ) < 5 ∧
      project3DPoint (⟨60, 1, 400, 300⟩ : RenderConfig) (⟨0, 0, 5⟩ : Point3D) =
        (⟨400, 300⟩ : Point2D) :=
  ⟨by norm_num, c3_project3DPoint_on_axis _ 5 (by norm_num)⟩

/-- C4: an instance whose camera-space center is (0, 0, d) with
nearPlane < d < farPlane (obtained here from an instance positioned at
(0, 0, d) with the camera at the origin and zero rotation) and whose world
bounding radius is 0 is classified VISIBLE by the culling stage, for any
valid FOV (0 < FOV < 180 degrees) and any positive aspect ratio. -/
theorem c4_cullSceneObject_on_axis_visible (cfg : RenderConfig)
    (obj : SceneObject (Mesh3D V)) (cam : Camera) (d : ℝ)
    (hcam : cam = { position := { x := 0, y := 0, z := 0 },
                    rotation := { x := 0, y := 0, z := 0 } })
    (hpos : obj.position = { x := 0, y := 0, z := d })
    (hrad : getWorldBoundingRadius obj = 0)
    (h1 : nearPlane < d) (h2 : d < farPlane)
    (hfov1 : 0 < cfg.FOV) (hfov2 : cfg.FOV < 180) (hasp : 0 < cfg.aspect) :
    (cullSceneObject cfg obj cam).visibilityState = VisibilityState.VISIBLE := by
  have hw : worldToCameraSpace
      { x := obj.position.x, y := obj.position.y, z := obj.position.z } cam =
      { x := 0, y := 0, z := d } := by
    subst hcam
    rw [hpos]
    unfold worldToCameraSpace
    norm_num
  unfold cullSceneObject
  simp only [hw, hrad, isObjectInFrustum_on_axis cfg d h1 h2 hfov1 hfov2 hasp]
  simp

/-- Witness for C4: a concrete zero-radius instance at (0, 0, 5), camera at
the origin with zero rotation, FOV = 60, aspect = 1. -/
theorem c4_witness :
    nearPlane < (5 : ℝ) ∧ (5 : ℝ) < farPlane ∧
      (cullSceneObject (⟨60, 1, 400, 300⟩ : RenderConfig)
          (⟨mkMesh3D [] ([] : List (Nat × Nat)) [], ⟨0, 0, 5⟩, ⟨0, 0, 0⟩,
              ⟨1, 1, 1⟩, VisibilityState.CULLED⟩ :
            SceneObject (Mesh3D (Nat × Nat)))
          (⟨⟨0, 0, 0⟩, ⟨0, 0, 0⟩⟩ : Camera)).visibilityState =
        VisibilityState.VISIBLE := by
  refine ⟨by norm_num [nearPlane], by norm_num [farPlane], ?_⟩
  apply c4_cullSceneObject_on_axis_visible _ _ _ 5 rfl rfl
  · simp [getWorldBoundingRadius, mkMesh3D, Mesh3D.getBoundingRadius,
      calculateBoundingRadius]
  · norm_num [nearPlane]
  · norm_num [farPlane]
  · norm_num
  · norm_num
  · norm_num

/-- C5: `getWorldBoundingRadius` returns exactly
`mesh.boundingRadius * max(|scale.x|, |scale.y|, |scale.z|)`; for a mesh
built by the `Mesh3D` constructor it is therefore nonnegative, and for a
fixed mesh it is monotone in `max(|scale.x|, |scale.y|, |scale.z|)`. -/
theorem c5_getWorldBoundingRadius_spec (obj obj' : SceneObject (Mesh3D V))
    (pts : List Point3D) (vs : List V) (polys : List Polygon3D)
    (hm : obj.mesh = mkMesh3D pts vs polys) (hm' : obj'.mesh = obj.mesh)
    (hscale : max (max |obj.scale.x| |obj.scale.y|) |obj.scale.z| ≤
      max (max |obj'.scale.x| |obj'.scale.y|) |obj'.scale.z|) :
    getWorldBoundingRadius obj =
        obj.mesh.boundingRadius * max (max |obj.scale.x| |obj.scale.y|) |obj.scale.z| ∧
      0 ≤ getWorldBoundingRadius obj ∧
      getWorldBoundingRadius obj ≤ getWorldBoundingRadius obj' := by
  have hrad : 0 ≤ obj.mesh.boundingRadius := by
    rw [hm]
    exact Real.sqrt_nonneg _
  refine ⟨rfl, ?_, ?_⟩
  · apply mul_nonneg hrad
    have := abs_nonneg obj.scale.x
    have h1 := le_max_left (max |obj.scale.x| |obj.scale.y|) |obj.scale.z|
    have h2 := le_max_left |obj.scale.x| |obj.scale.y|
    linarith
  · unfold getWorldBoundingRadius Mesh3D.getBoundingRadius
    rw [hm']
    exact mul_le_mul_of_nonneg_left hscale hrad

/-- Witness for C5: a concrete one-point mesh shared by two instances with
scales (1, 2, 3) and (2, 2, 4). -/
theorem c5_witness :
    getWorldBoundingRadius
        ({ mesh := mkMesh3D [{ x := 1, y := 0, z := 0 }] ([] : List (Nat × Nat)) [],
           position := { x := 0, y := 0, z := 0 },
           rotation := { x := 0, y := 0, z := 0 },
           scale := { x := 1, y := 2, z := 3 },
           visibilityState := VisibilityState.VISIBLE } : SceneObject (Mesh3D (Nat × Nat))) ≤
      getWorldBoundingRadius
        { mesh := mkMesh3D [{ x := 1, y := 0, z := 0 }] ([] : List (Nat × Nat)) [],
          position := { x := 0, y := 0, z := 0 },
          rotation := { x := 0, y := 0, z := 0 },
          scale := { x := 2, y := 2, z := 4 },
          visibilityState := VisibilityState.VISIBLE } := by
  have h := c5_getWorldBoundingRadius_spec
    ({ mesh := mkMesh3D [{ x := 1, y := 0, z := 0 }] ([] : List (Nat × Nat)) [],
       position := { x := 0, y := 0, z := 0 },
       rotation := { x := 0, y := 0, z := 0 },
       scale := { x := 1, y := 2, z := 3 },
       visibilityState := VisibilityState.VISIBLE } : SceneObject (Mesh3D (Nat × Nat)))
    { mesh := mkMesh3D [{ x := 1, y := 0, z := 0 }] ([] : List (Nat × Nat)) [],
      position := { x := 0, y := 0, z := 0 },
      rotation := { x := 0, y := 0, z := 0 },
      scale := { x := 2, y := 2, z := 4 },
      visibilityState := VisibilityState.VISIBLE }
    [{ x := 1, y := 0, z := 0 }] ([] : List (Nat × Nat)) [] rfl rfl
    (by norm_num)
  exact h.2.2

/-- C10: the frustum test is monotone in the bounding radius — if a sphere
of radius r at center c is classified visible, so is every sphere at the
same center with radius r' ≥ r. -/
theorem c10_isObjectInFrustum_mono (cfg : RenderConfig) (c : Point3D)
    (r r' : ℝ) (_h0 : 0 ≤ r) (hrr : r ≤ r')
    (hvis : isObjectInFrustum cfg c r = true) :
    isObjectInFrustum cfg c r' = true := by
  rw [isObjectInFrustum_eq_true_iff] at hvis ⊢
  obtain ⟨h1, h2, h3, h4, h5, h6⟩ := hvis
  push_neg at h1 h2 h3 h4 h5 h6
  refine ⟨?_, ?_, ?_, ?_, ?_, ?_⟩ <;> push_neg <;> linarith

/-- Witness for C10: the on-axis sphere at depth 5 remains visible when the
radius is enlarged from 0 to 1 (FOV = 90, aspect = 1). -/
theorem c10_witness :
    (0 : ℝ) ≤ 0 ∧ (0 : ℝ) ≤ 1 ∧
      isObjectInFrustum (⟨90, 1, 400, 300⟩ : RenderConfig)
        (⟨0, 0, 5⟩ : Point3D) 1 = true := by
  refine ⟨le_refl 0, by norm_num, ?_⟩
  apply c10_isObjectInFrustum_mono _ _ 0 1 (le_refl 0) (by norm_num)
  apply isObjectInFrustum_on_axis
  · norm_num [nearPlane]
  · norm_num [farPlane]
  · norm_num
  · norm_num
  · norm_num

/-! ### Claim theorems C1, C8, C9 -/

/-- C1 (refuting evidence): `rotateMesh3DY` never touches the mesh's
`points` and never re-derives `boundingRadius` — it reads and writes the
`vertices` (edge) array through `getVertices`/`setVertices`.  At the
failing input (a mesh with the single point (1,0,0) and one edge, rotated
by 90 degrees) the points stay (1,0,0) even though the Y-rotation the
body's formula describes would move (1,0,0) to (0,0,-1); the edge array is
overwritten with non-numeric entries. -/
theorem c1_rotateMesh3DY_points_untouched :
    (∀ (m : Mesh3D (Nat × Nat)) (θ : ℝ),
        (rotateMesh3DY m θ).points = m.points ∧
        (rotateMesh3DY m θ).boundingRadius = m.boundingRadius) ∧
      (rotateMesh3DY (mkMesh3D [⟨1, 0, 0⟩] [(0, 1)] []) 90).points =
        [⟨1, 0, 0⟩] ∧
      (rotateMesh3DY (mkMesh3D [⟨1, 0, 0⟩] [(0, 1)] []) 90).vertices =
        ([(none, none, none)] : List (JSNum × JSNum × JSNum)) ∧
      rotatePointY 90 ⟨1, 0, 0⟩ = ⟨0, 0, -1⟩ := by
  refine ⟨fun m θ => ⟨rfl, rfl⟩, rfl, rfl, ?_⟩
  have h : (90 : ℝ) * Real.pi / 180 = Real.pi / 2 := by ring
  unfold rotatePointY
  ext <;> simp [h]

/-- C8: calling the mesh rotation mutator with angle 0 leaves all of the
mesh's points and its bounding radius unchanged; and in exact real
arithmetic the body's Y-rotation formula at angle 0 is the identity on
every 3D point. -/
theorem c8_rotateMesh3DY_zero_angle :
    ∀ (m : Mesh3D (Nat × Nat)),
      (rotateMesh3DY m 0).points = m.points ∧
      (rotateMesh3DY m 0).boundingRadius = m.boundingRadius ∧
      ∀ p : Point3D, rotatePointY 0 p = p := by
  intro m
  refine ⟨rfl, rfl, fun p => ?_⟩
  unfold rotatePointY
  ext <;> simp

/-- C9: the zero-angle skips in `applyTransformToPoint` are a pure
optimization — for every point and every instance it returns the same
result as the unguarded reference version that always applies all three
axis rotations in order X, Y, Z after scaling and before translation. -/
theorem c9_applyTransformToPoint_skip_eq (point : Point3D)
    (obj : SceneObject M) :
    applyTransformToPoint point obj = applyTransformToPointUnguarded point obj := by
  unfold applyTransformToPoint applyTransformToPointUnguarded
  by_cases hx : obj.rotation.x = 0 <;> by_cases hy : obj.rotation.y = 0 <;>
    by_cases hz : obj.rotation.z = 0 <;>
    ext <;> simp [hx, hy, hz]

/-! ### Helper lemmas for the draw pass -/

/-- JS arithmetic absorbs `NaN`/`undefined` (left argument). -/
lemma jsMul_none_left (b : JSNum) : jsMul none b = none := by
  cases b <;> rfl

/-- JS arithmetic absorbs `NaN`/`undefined` (right argument). -/
lemma jsMul_none_right (a : JSNum) : jsMul a none = none := by
  cases a <;> rfl

/-- JS addition absorbs `NaN`/`undefined` (left argument). -/
lemma jsAdd_none_left (b : JSNum) : jsAdd none b = none := by
  cases b <;> rfl

/-- JS addition absorbs `NaN`/`undefined` (right argument). -/
lemma jsAdd_none_right (a : JSNum) : jsAdd a none = none := by
  cases a <;> rfl

/-- JS subtraction absorbs `NaN`/`undefined` (left argument). -/
lemma jsSub_none_left (b : JSNum) : jsSub none b = none := by
  cases b <;> rfl

/-- JS subtraction absorbs `NaN`/`undefined` (right argument). -/
lemma jsSub_none_right (a : JSNum) : jsSub a none = none := by
  cases a <;> rfl

/-- JS negation of `NaN`/`undefined` is `NaN`. -/
lemma jsNeg_none : jsNeg none = none := rfl

/-- `Math.max` with a `NaN` first argument is `NaN`. -/
lemma jsMax_none_left (b : JSNum) : jsMax none b = none := by
  cases b <;> rfl

/-- Division by `NaN` is `NaN`. -/
lemma jsDiv_none_right (a : JSNum) : jsDiv a none = none := by
  cases a <;> rfl

/-- Transforming an edge pair: every property read is `undefined`, so all
three output components are `NaN`. -/
lemma applyTransformToPointJS_none (point : Nat × Nat)
    (sceneObject : SceneObject M) :
    applyTransformToPointJS point sceneObject = (none, none, none) := by
  unfold applyTransformToPointJS
  by_cases hx : sceneObject.rotation.x = 0 <;>
    by_cases hy : sceneObject.rotation.y = 0 <;>
      by_cases hz : sceneObject.rotation.z = 0 <;>
  simp [hx, hy, hz, edgePropX, edgePropY, edgePropZ, jsMul_none_left,
    jsSub_none_left, jsSub_none_right, jsAdd_none_left, jsAdd_none_right,
    jsNeg_none]

/-- The camera transform propagates the all-`NaN` point. -/
lemma worldToCameraSpaceJS_none (camera : Camera) :
    worldToCameraSpaceJS (none, none, none) camera = (none, none, none) := by
  unfold worldToCameraSpaceJS
  by_cases hy : camera.rotation.y = 0 <;>
    by_cases hx : camera.rotation.x = 0 <;>
      by_cases hz : camera.rotation.z = 0 <;>
  simp [hx, hy, hz, jsMul_none_left, jsSub_none_left, jsSub_none_right,
    jsAdd_none_left, jsAdd_none_right, jsNeg_none]

/-- The projection maps the all-`NaN` camera point to a `(NaN, NaN)`
screen point (`Math.max(NaN, 0.1) = NaN` included). -/
lemma project3DPointJS_none (cfg : RenderConfig) :
    project3DPointJS cfg (none, none, none) = { x := none, y := none } := by
  unfold project3DPointJS projectToNDCJS ndcToScreenSpaceJS
  simp [jsMax_none_left, jsDiv_none_right, jsMul_none_left, jsMul_none_right,
    jsAdd_none_right, jsSub_none_right]

/-- The projected array of the draw pass: parallel to the mesh's EDGE
array, with every entry the `(NaN, NaN)` screen point. -/
lemma drawProjectedPoints_eq (cfg : RenderConfig)
    (obj : SceneObject (Mesh3D (Nat × Nat))) (cam : Camera) :
    drawProjectedPoints cfg obj cam =
      obj.mesh.vertices.map (fun _ => ({ x := none, y := none } : JSPoint2D)) := by
  unfold drawProjectedPoints Mesh3D.getVertices
  apply List.map_congr_left
  intro v _
  rw [applyTransformToPointJS_none, worldToCameraSpaceJS_none,
    project3DPointJS_none]

/-- A completed (non-faulted) edge loop had a call at every iteration. -/
lemma emitEdges_not_faulted (f : Nat → Option DrawCall) :
    ∀ (count s : Nat), (emitEdges f s count).2 = false →
      ∀ j, j < count → (f (s + j)).isSome := by
  intro count
  induction count with
  | zero => intro s _ j hj; omega
  | succ n ih =>
    intro s h j hj
    cases hf : f s with
    | none => simp [emitEdges, hf] at h
    | some c =>
      simp only [emitEdges, hf] at h
      match j with
      | 0 => simp [hf]
      | j + 1 =>
        have := ih (s + 1) h j (by omega)
        simpa [Nat.add_assoc, Nat.add_comm 1 j] using this

/-- Every call an edge loop emits came from some iteration. -/
lemma emitEdges_calls_from (f : Nat → Option DrawCall) :
    ∀ (count s : Nat), ∀ call ∈ (emitEdges f s count).1, ∃ j, f j = some call := by
  intro count
  induction count with
  | zero => intro s call hc; simp [emitEdges] at hc
  | succ n ih =>
    intro s call hc
    cases hf : f s with
    | none => simp [emitEdges, hf] at hc
    | some c =>
      simp only [emitEdges, hf, List.mem_cons] at hc
      rcases hc with rfl | hc
      · exact ⟨s, hf⟩
      · exact ih (s + 1) call hc

/-- A call produced by `drawCallAt` has both endpoints among the projected
points and carries the given color. -/
lemma drawCallAt_some_shape (pp : List JSPoint2D) (idxs : List Nat)
    (color : String) (i : Nat) (call : DrawCall)
    (h : drawCallAt pp idxs color i = some call) :
    ∃ s ∈ pp, ∃ e ∈ pp,
      call = { x0 := s.x, y0 := s.y, x1 := e.x, y1 := e.y, color := color } := by
  unfold drawCallAt at h
  split at h
  · split at h
    · rename_i s e hs he
      injection h with h
      exact ⟨s, List.getElem?_mem hs, e, List.getElem?_mem he, h.symm⟩
    · exact absurd h (by simp)
  · exact absurd h (by simp)

/-- A face containing an out-of-range point index faults. -/
lemma drawPolygonEdges_fault (pp : List JSPoint2D) (poly : Polygon3D)
    (hbad : ∃ a ∈ poly.vertexIndices, pp.length ≤ a) :
    (drawPolygonEdges pp poly).2 = true := by
  obtain ⟨a, ha, hlen⟩ := hbad
  by_contra h
  have hfalse : (drawPolygonEdges pp poly).2 = false := by
    cases hh : (drawPolygonEdges pp poly).2
    · rfl
    · exact absurd hh h
  obtain ⟨j, hj, hja⟩ := List.getElem_of_mem ha
  have hsome := emitEdges_not_faulted
    (drawCallAt pp poly.vertexIndices poly.color)
    poly.vertexIndices.length 0 hfalse j hj
  rw [Nat.zero_add] at hsome
  have hnone : pp[a]? = none := List.getElem?_eq_none hlen
  have hj2 : (j + 1) % poly.vertexIndices.length < poly.vertexIndices.length :=
    Nat.mod_lt _ (Nat.lt_of_le_of_lt (Nat.zero_le j) hj)
  have h1 : poly.vertexIndices[j]? = some a := by
    rw [List.getElem?_eq_getElem hj, hja]
  have h2 : poly.vertexIndices[(j + 1) % poly.vertexIndices.length]? =
      some poly.vertexIndices[(j + 1) % poly.vertexIndices.length] :=
    List.getElem?_eq_getElem hj2
  have hcall : drawCallAt pp poly.vertexIndices poly.color j = none := by
    cases h5 : pp[(poly.vertexIndices[(j + 1) % poly.vertexIndices.length])]? <;>
      simp [drawCallAt, h1, h2, hnone, h5]
  rw [hcall] at hsome
  simp at hsome

/-- The polygon loop faults whenever some face holds an out-of-range
index. -/
lemma drawPolygonList_fault (pp : List JSPoint2D) (polys : List Polygon3D)
    (hbad : ∃ poly ∈ polys, ∃ a ∈ poly.vertexIndices, pp.length ≤ a) :
    (drawPolygonList pp polys).2 = true := by
  induction polys with
  | nil => simp at hbad
  | cons poly rest ih =>
    obtain ⟨q, hq, hbadq⟩ := hbad
    rcases List.mem_cons.mp hq with rfl | hqrest
    · have := drawPolygonEdges_fault pp q hbadq
      simp [drawPolygonList, this]
    · cases hr : (drawPolygonEdges pp poly).2
      · have := ih ⟨q, hqrest, hbadq⟩
        simp [drawPolygonList, hr, this]
      · simp [drawPolygonList, hr]

/-- Every call the polygon loop emits connects two entries of the
projected array. -/
lemma drawPolygonList_calls_shape (pp : List JSPoint2D) (polys : List Polygon3D) :
    ∀ call ∈ (drawPolygonList pp polys).1,
      ∃ s ∈ pp, ∃ e ∈ pp, ∃ col,
        call = { x0 := s.x, y0 := s.y, x1 := e.x, y1 := e.y, color := col } := by
  induction polys with
  | nil => intro call hc; simp [drawPolygonList] at hc
  | cons poly rest ih =>
    intro call hc
    have hedge : ∀ c ∈ (drawPolygonEdges pp poly).1,
        ∃ s ∈ pp, ∃ e ∈ pp, ∃ col,
          c = { x0 := s.x, y0 := s.y, x1 := e.x, y1 := e.y, color := col } := by
      intro c hcmem
      obtain ⟨j, hj⟩ := emitEdges_calls_from _ _ _ c hcmem
      obtain ⟨s, hs, e, he, hshape⟩ := drawCallAt_some_shape pp _ _ j c hj
      exact ⟨s, hs, e, he, poly.color, hshape⟩
    by_cases hr : (drawPolygonEdges pp poly).2 = true
    · simp only [drawPolygonList, hr, if_true] at hc
      exact hedge call hc
    · simp [drawPolygonList, hr] at hc
      rcases hc with hc | hc
      · exact hedge call hc
      · exact ih call hc

/-! ### Claim theorems C2, C7 -/

/-- C2 (refuting evidence): `drawSceneObject`, composed with the `Mesh3D`
class of `src/Mesh3D.ts`, does not project the mesh's points.  It maps the
EDGE array through the pipeline: the projected array equals one `(NaN,
NaN)` entry per edge pair — parallel to `mesh.vertices`, not to
`mesh.points` — and every `drawLine` call it issues carries only `NaN`
coordinates.  At the failing input (one point, two edges, one face over
edge-array indices 0 and 1) the projected array has length 2 while the
point array has length 1, and the pass silently issues two all-`NaN` draw
calls without faulting. -/
theorem c2_drawSceneObject_projects_edges_not_points :
    (∀ (cfg : RenderConfig) (obj : SceneObject (Mesh3D (Nat × Nat))) (cam : Camera),
        drawProjectedPoints cfg obj cam =
          obj.mesh.vertices.map (fun _ => ({ x := none, y := none } : JSPoint2D))) ∧
    (∀ (cfg : RenderConfig) (obj : SceneObject (Mesh3D (Nat × Nat))) (cam : Camera),
        ∀ call ∈ (drawSceneObject cfg obj cam).1,
          call.x0 = none ∧ call.y0 = none ∧ call.x1 = none ∧ call.y1 = none) ∧
    (drawProjectedPoints (⟨60, 1, 400, 300⟩ : RenderConfig)
        (⟨mkMesh3D [⟨1, 0, 0⟩] [(0, 1), (1, 0)] [⟨"#ff0000", [0, 1]⟩],
            ⟨0, 0, 0⟩, ⟨0, 0, 0⟩, ⟨1, 1, 1⟩, VisibilityState.VISIBLE⟩ :
          SceneObject (Mesh3D (Nat × Nat)))
        (⟨⟨0, 0, 0⟩, ⟨0, 0, 0⟩⟩ : Camera)).length = 2 ∧
    (mkMesh3D [(⟨1, 0, 0⟩ : Point3D)] [((0 : Nat), (1 : Nat)), (1, 0)]
        [⟨"#ff0000", [0, 1]⟩]).points.length = 1 ∧
    (drawSceneObject (⟨60, 1, 400, 300⟩ : RenderConfig)
        (⟨mkMesh3D [⟨1, 0, 0⟩] [(0, 1), (1, 0)] [⟨"#ff0000", [0, 1]⟩],
            ⟨0, 0, 0⟩, ⟨0, 0, 0⟩, ⟨1, 1, 1⟩, VisibilityState.VISIBLE⟩ :
          SceneObject (Mesh3D (Nat × Nat)))
        (⟨⟨0, 0, 0⟩, ⟨0, 0, 0⟩⟩ : Camera)) =
      ([⟨none, none, none, none, "#ff0000"⟩, ⟨none, none, none, none, "#ff0000"⟩],
        false) := by
  have hnan : ∀ (cfg : RenderConfig) (obj : SceneObject (Mesh3D (Nat × Nat)))
      (cam : Camera), ∀ call ∈ (drawSceneObject cfg obj cam).1,
        call.x0 = none ∧ call.y0 = none ∧ call.x1 = none ∧ call.y1 = none := by
    intro cfg obj cam call hc
    obtain ⟨s, hs, e, he, col, rfl⟩ :=
      drawPolygonList_calls_shape (drawProjectedPoints cfg obj cam)
        obj.mesh.polygons call hc
    rw [drawProjectedPoints_eq] at hs he
    obtain ⟨_, _, rfl⟩ := List.mem_map.mp hs
    obtain ⟨_, _, rfl⟩ := List.mem_map.mp he
    exact ⟨rfl, rfl, rfl, rfl⟩
  refine ⟨fun cfg obj cam => drawProjectedPoints_eq cfg obj cam, hnan, ?_, rfl, ?_⟩
  · rw [drawProjectedPoints_eq]
    rfl
  · show drawPolygonList (drawProjectedPoints _ _ _) _ = _
    rw [drawProjectedPoints_eq]
    rfl

/-- C7: if some face of the mesh references an index outside the range of
the array it indexes into (the projected array, parallel to the mesh's
`vertices`), `drawSceneObject` faults — the out-of-range read yields
`undefined` and the `.x` property access raises a TypeError before
`drawLine` is invoked for that edge, aborting the pass — and every call it
did issue before the fault resolved both of its endpoints through in-range
indices into the projected array. -/
theorem c7_drawSceneObject_fail_fast (cfg : RenderConfig)
    (obj : SceneObject (Mesh3D (Nat × Nat))) (cam : Camera)
    (hbad : ∃ poly ∈ obj.mesh.polygons, ∃ a ∈ poly.vertexIndices,
      obj.mesh.vertices.length ≤ a) :
    (drawSceneObject cfg obj cam).2 = true ∧
    ∀ call ∈ (drawSceneObject cfg obj cam).1,
      ∃ s ∈ drawProjectedPoints cfg obj cam,
      ∃ e ∈ drawProjectedPoints cfg obj cam,
      ∃ col, call = { x0 := s.x, y0 := s.y, x1 := e.x, y1 := e.y, color := col } := by
  obtain ⟨poly, hp, a, ha, hlen⟩ := hbad
  have hbad2 : ∃ poly ∈ obj.mesh.polygons, ∃ a ∈ poly.vertexIndices,
      (drawProjectedPoints cfg obj cam).length ≤ a := by
    refine ⟨poly, hp, a, ha, ?_⟩
    rw [drawProjectedPoints_eq, List.length_map]
    exact hlen
  constructor
  · exact drawPolygonList_fault _ obj.mesh.polygons hbad2
  · exact drawPolygonList_calls_shape _ obj.mesh.polygons

/-- Witness for C7: a mesh with a single edge whose face references the
out-of-range index 5 — the draw pass faults. -/
theorem c7_witness :
    (∃ poly ∈ (mkMesh3D [(⟨0, 0, 0⟩ : Point3D)] [((0 : Nat), (1 : Nat))]
        [⟨"#00ff00", [0, 5]⟩]).polygons,
      ∃ a ∈ poly.vertexIndices,
        (mkMesh3D [(⟨0, 0, 0⟩ : Point3D)] [((0 : Nat), (1 : Nat))]
          [⟨"#00ff00", [0, 5]⟩]).vertices.length ≤ a) ∧
    (drawSceneObject (⟨60, 1, 400, 300⟩ : RenderConfig)
        (⟨mkMesh3D [⟨0, 0, 0⟩] [(0, 1)] [⟨"#00ff00", [0, 5]⟩],
            ⟨0, 0, 0⟩, ⟨0, 0, 0⟩, ⟨1, 1, 1⟩, VisibilityState.VISIBLE⟩ :
          SceneObject (Mesh3D (Nat × Nat)))
        (⟨⟨0, 0, 0⟩, ⟨0, 0, 0⟩⟩ : Camera)).2 = true := by
  have hbad : ∃ poly ∈ (mkMesh3D [(⟨0, 0, 0⟩ : Point3D)] [((0 : Nat), (1 : Nat))]
      [⟨"#00ff00", [0, 5]⟩]).polygons,
      ∃ a ∈ poly.vertexIndices,
        (mkMesh3D [(⟨0, 0, 0⟩ : Point3D)] [((0 : Nat), (1 : Nat))]
          [⟨"#00ff00", [0, 5]⟩]).vertices.length ≤ a :=
    ⟨⟨"#00ff00", [0, 5]⟩, by simp [mkMesh3D], 5, by simp, by simp [mkMesh3D]⟩
  refine ⟨hbad, ?_⟩
  exact (c7_drawSceneObject_fail_fast (⟨60, 1, 400, 300⟩ : RenderConfig)
    (⟨mkMesh3D [⟨0, 0, 0⟩] [(0, 1)] [⟨"#00ff00", [0, 5]⟩],
        ⟨0, 0, 0⟩, ⟨0, 0, 0⟩, ⟨1, 1, 1⟩, VisibilityState.VISIBLE⟩ :
      SceneObject (Mesh3D (Nat × Nat)))
    (⟨⟨0, 0, 0⟩, ⟨0, 0, 0⟩⟩ : Camera) hbad).1

/-! ### Helper lemmas for the grid generator -/

/-- `lookupEdge` misses exactly when the key is not among the map's
keys. -/
lemma lookupEdge_eq_none_iff (m : List ((Nat × Nat) × Nat)) (k : Nat × Nat) :
    lookupEdge m k = none ↔ k ∉ m.map Prod.fst := by
  induction m with
  | nil => simp [lookupEdge]
  | cons entry rest ih =>
    by_cases h : entry.1 = k
    · simp [lookupEdge, h]
    · simp [lookupEdge, h, ih, Ne.symm h]

/-- `addEdge` preserves the grid invariant. -/
lemma addEdge_inv (st : GridState) (p1 p2 : Nat) (h : GridInv st) :
    GridInv (addEdge st p1 p2).1 := by
  obtain ⟨heq, hnd⟩ := h
  unfold addEdge
  cases hl : lookupEdge st.edgeMap (edgeKey p1 p2) with
  | some i =>
    simp only [hl]
    exact ⟨heq, hnd⟩
  | none =>
    simp only [hl]
    have hk : edgeKey p1 p2 ∉ st.edgeMap.map Prod.fst :=
      (lookupEdge_eq_none_iff _ _).mp hl
    refine ⟨?_, ?_⟩
    · simp only [List.map_append, heq]
      rfl
    · simp only [List.map_append, List.nodup_append]
      refine ⟨hnd, by simp, ?_⟩
      intro a ha hb
      simp only [List.map_cons, List.map_nil, List.mem_singleton] at hb
      subst hb
      exact hk ha

/-- The effect of `addEdge` on the sequence of normalized stored keys is
`insertNew`. -/
lemma addEdge_keys (st : GridState) (p1 p2 : Nat) (h : GridInv st) :
    (addEdge st p1 p2).1.vertices.map pairKey =
      insertNew (st.vertices.map pairKey) (edgeKey p1 p2) := by
  obtain ⟨heq, hnd⟩ := h
  unfold addEdge insertNew
  cases hl : lookupEdge st.edgeMap (edgeKey p1 p2) with
  | some i =>
    simp only [hl]
    have hk : edgeKey p1 p2 ∈ st.edgeMap.map Prod.fst := by
      by_contra hcon
      rw [← lookupEdge_eq_none_iff] at hcon
      rw [hcon] at hl
      cases hl
    rw [heq] at hk
    simp [hk]
  | none =>
    simp only [hl]
    have hk : edgeKey p1 p2 ∉ st.edgeMap.map Prod.fst :=
      (lookupEdge_eq_none_iff _ _).mp hl
    rw [heq] at hk
    rw [if_neg hk, List.map_append]
    rfl

/-- Replacing only the polygons of a state commutes with `addEdge`. -/
lemma addEdge_polyUpdate (st : GridState) (P : List Polygon3D) (p1 p2 : Nat) :
    (addEdge { st with polygons := P } p1 p2).1 =
      { (addEdge st p1 p2).1 with polygons := P } := by
  unfold addEdge
  cases hl : lookupEdge st.edgeMap (edgeKey p1 p2) <;> simp [hl]

/-- The grid invariant ignores the polygons field. -/
lemma gridInv_polyUpdate (st : GridState) (P : List Polygon3D) :
    GridInv { st with polygons := P } ↔ GridInv st := Iff.rfl

/-- One cell preserves the invariant and contributes its six candidate
keys through `insertNew`. -/
lemma processCell_spec (gridSize : Nat) (color : String) (st : GridState)
    (z x : Nat) (h : GridInv st) :
    GridInv (processCell gridSize color st z x) ∧
    (processCell gridSize color st z x).vertices.map pairKey =
      (cellKeys gridSize z x).foldl insertNew (st.vertices.map pairKey) := by
  unfold processCell cellKeys getPointIndex
  simp only [List.foldl_cons, List.foldl_nil, addEdge_polyUpdate, gridInv_polyUpdate]
  have h1 := addEdge_inv st
    (z * (gridSize + 1) + x) (z * (gridSize + 1) + (x + 1)) h
  have h2 := addEdge_inv _
    (z * (gridSize + 1) + (x + 1)) ((z + 1) * (gridSize + 1) + x) h1
  have h3 := addEdge_inv _
    ((z + 1) * (gridSize + 1) + x) (z * (gridSize + 1) + x) h2
  have h4 := addEdge_inv _
    (z * (gridSize + 1) + (x + 1)) ((z + 1) * (gridSize + 1) + (x + 1)) h3
  have h5 := addEdge_inv _
    ((z + 1) * (gridSize + 1) + (x + 1)) ((z + 1) * (gridSize + 1) + x) h4
  have h6 := addEdge_inv _
    ((z + 1) * (gridSize + 1) + x) (z * (gridSize + 1) + (x + 1)) h5
  refine ⟨h6, ?_⟩
  rw [addEdge_keys _ _ _ h5, addEdge_keys _ _ _ h4, addEdge_keys _ _ _ h3,
    addEdge_keys _ _ _ h2, addEdge_keys _ _ _ h1, addEdge_keys _ _ _ h]

/-- Folding a cell list preserves the invariant and accumulates the cells'
candidate keys in order. -/
lemma cellsFold_spec (gridSize : Nat) (color : String) :
    ∀ (cells : List (Nat × Nat)) (st : GridState), GridInv st →
      GridInv (cells.foldl (fun st c => processCell gridSize color st c.1 c.2) st) ∧
      (cells.foldl (fun st c => processCell gridSize color st c.1 c.2) st).vertices.map pairKey =
        (cells.flatMap (fun c => cellKeys gridSize c.1 c.2)).foldl insertNew
          (st.vertices.map pairKey) := by
  intro cells
  induction cells with
  | nil => intro st h; exact ⟨h, rfl⟩
  | cons c rest ih =>
    intro st h
    obtain ⟨hc, ec⟩ := processCell_spec gridSize color st c.1 c.2 h
    obtain ⟨hr, er⟩ := ih _ hc
    refine ⟨hr, ?_⟩
    rw [List.foldl_cons, List.flatMap_cons, List.foldl_append, er, ec]

/-- A doubly nested fold over ranges is the fold over the flattened cell
list. -/
lemma foldl_foldl_eq_flatMap {α β σ : Type} (l : List α) (g : α → List β)
    (f : σ → β → σ) :
    ∀ s : σ, l.foldl (fun s a => (g a).foldl f s) s = (l.flatMap g).foldl f s := by
  induction l with
  | nil => intro s; rfl
  | cons a rest ih =>
    intro s
    rw [List.foldl_cons, List.flatMap_cons, List.foldl_append, ih]

/-- `gridLoop` is the cell-list fold of `processCell`. -/
lemma gridLoop_eq_cells (gridSize : Nat) (color : String) :
    gridLoop gridSize color =
      (cellList gridSize).foldl
        (fun st c => processCell gridSize color st c.1 c.2)
        { vertices := [], edgeMap := [], edgeIndex := 0, polygons := [] } := by
  unfold gridLoop cellList
  rw [← foldl_foldl_eq_flatMap]
  congr 1
  funext st z
  rw [List.foldl_map]

/-- The grid loop's invariant and key characterization. -/
lemma gridLoop_spec (gridSize : Nat) (color : String) :
    GridInv (gridLoop gridSize color) ∧
    (gridLoop gridSize color).vertices.map pairKey =
      (allCellKeys gridSize).foldl insertNew [] := by
  rw [gridLoop_eq_cells]
  have h := cellsFold_spec gridSize color (cellList gridSize)
    { vertices := [], edgeMap := [], edgeIndex := 0, polygons := [] }
    ⟨rfl, List.nodup_nil⟩
  exact ⟨h.1, by rw [h.2]; rfl⟩

/-- `insertNew` folds produce duplicate-free lists. -/
lemma foldl_insertNew_nodup (l : List (Nat × Nat)) :
    ∀ ks : List (Nat × Nat), ks.Nodup → (l.foldl insertNew ks).Nodup := by
  induction l with
  | nil => intro ks h; exact h
  | cons k rest ih =>
    intro ks h
    rw [List.foldl_cons]
    apply ih
    unfold insertNew
    split_ifs with hk
    · exact h
    · simp [List.nodup_append, h, hk]

/-- The set of keys collected by an `insertNew` fold. -/
lemma foldl_insertNew_toFinset (l : List (Nat × Nat)) :
    ∀ ks : List (Nat × Nat),
      (l.foldl insertNew ks).toFinset = ks.toFinset ∪ l.toFinset := by
  induction l with
  | nil => intro ks; simp
  | cons k rest ih =>
    intro ks
    rw [List.foldl_cons, ih]
    unfold insertNew
    split_ifs with hk
    · ext a
      simp only [Finset.mem_union, List.mem_toFinset, List.mem_cons]
      constructor
      · rintro (ha | ha)
        · exact Or.inl ha
        · exact Or.inr (Or.inr ha)
      · rintro (ha | rfl | ha)
        · exact Or.inl ha
        · exact Or.inl hk
        · exact Or.inr ha
    · ext a
      simp only [Finset.mem_union, List.mem_toFinset, List.mem_append,
        List.mem_cons, List.mem_singleton]
      tauto

/-- The six candidate keys of a cell, with the `edgeKey` normalizations
resolved (valid for grids with at least one cell). -/
lemma cellKeys_explicit (n z x : Nat) (hn : 1 ≤ n) :
    cellKeys n z x =
      [(z * (n + 1) + x, z * (n + 1) + x + 1),
       (z * (n + 1) + x + 1, z * (n + 1) + x + 1 + n),
       (z * (n + 1) + x, z * (n + 1) + x + (n + 1)),
       (z * (n + 1) + x + 1, z * (n + 1) + x + 1 + (n + 1)),
       (z * (n + 1) + x + (n + 1), z * (n + 1) + x + (n + 1) + 1),
       (z * (n + 1) + x + 1, z * (n + 1) + x + 1 + n)] := by
  simp only [cellKeys, getPointIndex, edgeKey]
  have hzz : (z + 1) * (n + 1) = z * (n + 1) + (n + 1) := by ring
  rw [hzz]
  generalize z * (n + 1) = A
  split_ifs <;>
    simp only [List.cons.injEq, Prod.mk.injEq, and_true, true_and] <;> omega

/-- Membership in the full candidate key list. -/
lemma mem_allCellKeys (n : Nat) (k : Nat × Nat) :
    k ∈ allCellKeys n ↔ ∃ z < n, ∃ x < n, k ∈ cellKeys n z x := by
  unfold allCellKeys cellList
  simp only [List.mem_flatMap, List.mem_map, List.mem_range]
  constructor
  · rintro ⟨c, ⟨z, hz, x, hx, rfl⟩, hk⟩
    exact ⟨z, hz, x, hx, hk⟩
  · rintro ⟨z, hz, x, hx, hk⟩
    exact ⟨(z, x), ⟨z, hz, x, hx, rfl⟩, hk⟩

/-- Decoding `z * (n + 1) + x` with `x < n + 1` is injective. -/
lemma encode_inj (n x z x' z' : Nat) (hx : x < n + 1) (hx' : x' < n + 1)
    (h : z * (n + 1) + x = z' * (n + 1) + x') : x = x' ∧ z = z' := by
  have h1 : x = x' := by
    have e1 : (x + z * (n + 1)) % (n + 1) = x := by
      rw [Nat.add_mul_mod_self_right]
      exact Nat.mod_eq_of_lt hx
    have e2 : (x' + z' * (n + 1)) % (n + 1) = x' := by
      rw [Nat.add_mul_mod_self_right]
      exact Nat.mod_eq_of_lt hx'
    have h' : x + z * (n + 1) = x' + z' * (n + 1) := by
      rw [Nat.add_comm x, Nat.add_comm x']
      exact h
    rw [← e1, ← e2, h']
  subst h1
  have h2 : z * (n + 1) = z' * (n + 1) := Nat.add_right_cancel h
  exact ⟨rfl, Nat.eq_of_mul_eq_mul_right (Nat.succ_pos n) h2⟩

/-- The candidate keys of the whole grid as a finite set: the horizontal
edges, the vertical edges, and the diagonal edges. -/
lemma allCellKeys_toFinset (n : Nat) (hn : 1 ≤ n) :
    (allCellKeys n).toFinset =
      ((Finset.range n ×ˢ Finset.range (n + 1)).image
          (fun p => (p.2 * (n + 1) + p.1, p.2 * (n + 1) + p.1 + 1))) ∪
      ((Finset.range (n + 1) ×ˢ Finset.range n).image
          (fun p => (p.2 * (n + 1) + p.1, p.2 * (n + 1) + p.1 + (n + 1)))) ∪
      ((Finset.range n ×ˢ Finset.range n).image
          (fun p => (p.2 * (n + 1) + p.1 + 1, p.2 * (n + 1) + p.1 + 1 + n))) := by
  ext k
  rw [List.mem_toFinset, mem_allCellKeys]
  simp only [Finset.mem_union, Finset.mem_image, Finset.mem_product,
    Finset.mem_range]
  constructor
  · rintro ⟨z, hz, x, hx, hk⟩
    rw [cellKeys_explicit n z x hn] at hk
    simp only [List.mem_cons, List.not_mem_nil, or_false] at hk
    rcases hk with rfl | rfl | rfl | rfl | rfl | rfl
    · exact Or.inl (Or.inl ⟨(x, z), ⟨hx, by omega⟩, rfl⟩)
    · exact Or.inr ⟨(x, z), ⟨hx, hz⟩, rfl⟩
    · exact Or.inl (Or.inr ⟨(x, z), ⟨by omega, hz⟩, rfl⟩)
    · refine Or.inl (Or.inr ⟨(x + 1, z), ⟨by omega, hz⟩, ?_⟩)
      simp only [Prod.mk.injEq]
      omega
    · refine Or.inl (Or.inl ⟨(x, z + 1), ⟨hx, by omega⟩, ?_⟩)
      simp only [Prod.mk.injEq]
      constructor <;> ring
    · exact Or.inr ⟨(x, z), ⟨hx, hz⟩, rfl⟩
  · rintro ((⟨⟨x, z⟩, ⟨hx, hz⟩, rfl⟩ | ⟨⟨x, z⟩, ⟨hx, hz⟩, rfl⟩) |
      ⟨⟨x, z⟩, ⟨hx, hz⟩, rfl⟩)
    · rcases Nat.lt_or_ge z n with hzn | hzn
      · refine ⟨z, hzn, x, hx, ?_⟩
        rw [cellKeys_explicit n z x hn]
        simp
      · have hze : z = n := by omega
        rw [hze]
        obtain ⟨m, rfl⟩ : ∃ m, n = m + 1 := ⟨n - 1, by omega⟩
        refine ⟨m, by omega, x, hx, ?_⟩
        rw [cellKeys_explicit (m + 1) m x (by omega)]
        have he : m * (m + 1 + 1) + (m + 1 + 1) = (m + 1) * (m + 1 + 1) := by
          ring
        simp only [List.mem_cons, Prod.mk.injEq, List.not_mem_nil, or_false]
        omega
    · rcases Nat.lt_or_ge x n with hxn | hxn
      · refine ⟨z, hz, x, hxn, ?_⟩
        rw [cellKeys_explicit n z x hn]
        simp
      · have hxe : x = n := by omega
        rw [hxe]
        obtain ⟨m, rfl⟩ : ∃ m, n = m + 1 := ⟨n - 1, by omega⟩
        refine ⟨z, hz, m, by omega, ?_⟩
        rw [cellKeys_explicit (m + 1) z m (by omega)]
        simp only [List.mem_cons, Prod.mk.injEq, List.not_mem_nil, or_false]
        omega
    · refine ⟨z, hz, x, hx, ?_⟩
      rw [cellKeys_explicit n z x hn]
      simp

/-- Cardinality of the candidate key set: n(n+1) horizontal, (n+1)n
vertical, and n² diagonal edges, pairwise distinct. -/
lemma allCellKeys_card (n : Nat) (hn : 1 ≤ n) :
    (allCellKeys n).toFinset.card = n * (n + 1) * 2 + n * n := by
  rw [allCellKeys_toFinset n hn]
  have hH : ((Finset.range n ×ˢ Finset.range (n + 1)).image
      (fun p : Nat × Nat => (p.2 * (n + 1) + p.1, p.2 * (n + 1) + p.1 + 1))).card =
      n * (n + 1) := by
    rw [Finset.card_image_of_injOn, Finset.card_product, Finset.card_range,
      Finset.card_range]
    intro p hp q hq hpq
    simp only [Finset.mem_coe, Finset.mem_product, Finset.mem_range] at hp hq
    simp only [Prod.mk.injEq] at hpq
    obtain ⟨he, _⟩ := hpq
    obtain ⟨h1, h2⟩ := encode_inj n p.1 p.2 q.1 q.2 (by omega) (by omega) he
    exact Prod.ext h1 h2
  have hV : ((Finset.range (n + 1) ×ˢ Finset.range n).image
      (fun p : Nat × Nat => (p.2 * (n + 1) + p.1, p.2 * (n + 1) + p.1 + (n + 1)))).card =
      (n + 1) * n := by
    rw [Finset.card_image_of_injOn, Finset.card_product, Finset.card_range,
      Finset.card_range]
    intro p hp q hq hpq
    simp only [Finset.mem_coe, Finset.mem_product, Finset.mem_range] at hp hq
    simp only [Prod.mk.injEq] at hpq
    obtain ⟨he, _⟩ := hpq
    obtain ⟨h1, h2⟩ := encode_inj n p.1 p.2 q.1 q.2 (by omega) (by omega) he
    exact Prod.ext h1 h2
  have hD : ((Finset.range n ×ˢ Finset.range n).image
      (fun p : Nat × Nat => (p.2 * (n + 1) + p.1 + 1, p.2 * (n + 1) + p.1 + 1 + n))).card =
      n * n := by
    rw [Finset.card_image_of_injOn, Finset.card_product, Finset.card_range]
    intro p hp q hq hpq
    simp only [Finset.mem_coe, Finset.mem_product, Finset.mem_range] at hp hq
    simp only [Prod.mk.injEq] at hpq
    obtain ⟨he, _⟩ := hpq
    have he' : p.2 * (n + 1) + p.1 = q.2 * (n + 1) + q.1 := by omega
    obtain ⟨h1, h2⟩ := encode_inj n p.1 p.2 q.1 q.2 (by omega) (by omega) he'
    exact Prod.ext h1 h2
  have hdHV : Disjoint
      ((Finset.range n ×ˢ Finset.range (n + 1)).image
        (fun p : Nat × Nat => (p.2 * (n + 1) + p.1, p.2 * (n + 1) + p.1 + 1)))
      ((Finset.range (n + 1) ×ˢ Finset.range n).image
        (fun p : Nat × Nat => (p.2 * (n + 1) + p.1, p.2 * (n + 1) + p.1 + (n + 1)))) := by
    rw [Finset.disjoint_left]
    intro k hk1 hk2
    simp only [Finset.mem_image, Finset.mem_product, Finset.mem_range] at hk1 hk2
    obtain ⟨p, hp, rfl⟩ := hk1
    obtain ⟨q, hq, hk⟩ := hk2
    simp only [Prod.mk.injEq] at hk
    omega
  have hdHD : Disjoint
      ((Finset.range n ×ˢ Finset.range (n + 1)).image
        (fun p : Nat × Nat => (p.2 * (n + 1) + p.1, p.2 * (n + 1) + p.1 + 1)))
      ((Finset.range n ×ˢ Finset.range n).image
        (fun p : Nat × Nat => (p.2 * (n + 1) + p.1 + 1, p.2 * (n + 1) + p.1 + 1 + n))) := by
    rw [Finset.disjoint_left]
    intro k hk1 hk2
    simp only [Finset.mem_image, Finset.mem_product, Finset.mem_range] at hk1 hk2
    obtain ⟨p, hp, rfl⟩ := hk1
    obtain ⟨q, hq, hk⟩ := hk2
    simp only [Prod.mk.injEq] at hk
    have hn1 : n = 1 := by omega
    subst hn1
    omega
  have hdVD : Disjoint
      ((Finset.range (n + 1) ×ˢ Finset.range n).image
        (fun p : Nat × Nat => (p.2 * (n + 1) + p.1, p.2 * (n + 1) + p.1 + (n + 1))))
      ((Finset.range n ×ˢ Finset.range n).image
        (fun p : Nat × Nat => (p.2 * (n + 1) + p.1 + 1, p.2 * (n + 1) + p.1 + 1 + n))) := by
    rw [Finset.disjoint_left]
    intro k hk1 hk2
    simp only [Finset.mem_image, Finset.mem_product, Finset.mem_range] at hk1 hk2
    obtain ⟨p, hp, rfl⟩ := hk1
    obtain ⟨q, hq, hk⟩ := hk2
    simp only [Prod.mk.injEq] at hk
    omega
  rw [Finset.card_union_of_disjoint, Finset.card_union_of_disjoint hdHV,
    hH, hV, hD]
  · ring
  · rw [Finset.disjoint_union_left]
    exact ⟨hdHD, hdVD⟩

/-! ### Claim theorem C6 -/

/-- C6: for every grid size n ≥ 1, `createGridMesh` produces an edge list
with exactly n(n+1)·2 + n² entries, and no two entries are the same
unordered pair of point indices (every shared edge is stored once). -/
theorem c6_createGridMesh_edge_dedup (gridSize : Nat) (hn : 1 ≤ gridSize)
    (cellSize : ℝ) (color : String) :
    (createGridMesh gridSize cellSize color).vertices.length =
      gridSize * (gridSize + 1) * 2 + gridSize * gridSize ∧
    ((createGridMesh gridSize cellSize color).vertices.map pairKey).Nodup := by
  have hv : (createGridMesh gridSize cellSize color).vertices =
      (gridLoop gridSize color).vertices := rfl
  obtain ⟨hinv, hkeys⟩ := gridLoop_spec gridSize color
  have hnodup : ((gridLoop gridSize color).vertices.map pairKey).Nodup := by
    rw [hkeys]
    exact foldl_insertNew_nodup _ [] List.nodup_nil
  refine ⟨?_, by rw [hv]; exact hnodup⟩
  have hlen : (gridLoop gridSize color).vertices.length =
      ((gridLoop gridSize color).vertices.map pairKey).length :=
    (List.length_map _ _).symm
  rw [hv, hlen, ← List.toFinset_card_of_nodup hnodup, hkeys,
    foldl_insertNew_toFinset]
  simp only [List.toFinset_nil, Finset.empty_union]
  exact allCellKeys_card gridSize hn

/-- Witness for C6 at the concrete grid size 1: 5 unique edges. -/
theorem c6_witness :
    (createGridMesh 1 1 "#808080").vertices.length = 1 * (1 + 1) * 2 + 1 * 1 ∧
    ((createGridMesh 1 1 "#808080").vertices.map pairKey).Nodup :=
  c6_createGridMesh_edge_dedup 1 (by norm_num) 1 "#808080"
